import Mathlib

/-
Verification of easyTCP2, file src/easyTCP2/Server/Client.py.

The Client class there owns one accepted connection: it runs a two-round
handshake (register / handshake), a dispatch loop (listen / process), group
teardown (close / kill) and coded error signaling (error_codes /
raise_error_code). The definitions below are a shallow embedding of that
file. Network receives are supplied as a script of transport events; sends
and side effects (add_client, hook tasks, log records) are accumulated in
trace records. Python exceptions are modelled as Option/Except values or as
a Bool flag recording whether the operation completed without raising.

Pieces of the repository that Client.py imports but that are not part of
the file itself (Protocol.send/recv/expected, the Decorators hook "call",
the Group class) are modelled from the specification, as marked on each
such definition. Two stdlib facts are used. First, asyncio.wait applied to
an empty list raises ValueError before awaiting anything. Second, the
printf-style "%d" conversion requires a number, and Client defines only
a str conversion and comparisons (lines 202-218), so the eagerly evaluated
formattings "Client %d left the server" % self (line 88) and
"Client %d raised %s ..." % (self, error) (line 185) raise TypeError
before their logger call runs; the success-path log lines 163 and 197
format self.id, an int, and are unaffected.
-/

namespace EasyTCP

/-- One framed wire message: a method name and the named fields. -/
structure Msg where
  method : String
  fields : List (String × String)
  deriving DecidableEq, Repr

/-- Outcome of one transport receive during the handshake: either a framed
message from the peer, or a transport-level failure (framing error,
connection closed). An exhausted script models a peer that never answers,
which surfaces as the raised timeout of the 20-unit deadline wrapped around
the handshake. -/
inductive RecvEvent where
  | msg (m : Msg)
  | fail
  deriving DecidableEq, Repr

/-- Modelled from the spec: Protocol.expected (spec 4.1) is missing from
src/. It performs one recv and fails with a ProtocolViolation condition
when the received method name differs from the expected one; transport
failures propagate. All of these raise in Python, and Client.register
treats every raise alike, so the error carries no payload here. -/
def expected (m : String) (script : List RecvEvent) :
    Except Unit (Msg × List RecvEvent) :=
  match script with
  | [] => Except.error ()
  | RecvEvent.fail :: _ => Except.error ()
  | RecvEvent.msg r :: rest =>
      if r.method = m then Except.ok (r, rest) else Except.error ()

/-- Lookup of a key in a Python dict of strings; none models a KeyError. -/
def dictLookupS : List (String × String) → String → Option String
  | [], _ => none
  | (k2, v) :: rest, k => if k2 = k then some v else dictLookupS rest k

/-- Python str.lower for the ASCII status strings used by the handshake. -/
def strLower (s : String) : String :=
  ⟨s.data.map Char.toLower⟩

/-- Client.handshake, lines 91-122 of Client.py. Sends HANDSHAKE, expects
the echo, sends PHASE 1 with the server version, expects the PHASE 1 reply,
then evaluates, with Python short-circuiting,

  if not(code["status"].lower() == "okay") and
     not(code["version"] in self.server.supported_versions)

sending BREAK and raising ValueError when the condition holds, and sending
a final HANDSHAKE otherwise. A missing "status" key (or, when consulted, a
missing "version" key) is a KeyError, hence a failure. Returns the list of
sent messages and whether the handshake completed without raising. -/
def Client.handshake (serverVersion : String) (supported : List String)
    (script : List RecvEvent) : List Msg × Bool :=
  let sent0 := [Msg.mk "HANDSHAKE" []]
  match expected "HANDSHAKE" script with
  | Except.error _ => (sent0, false)
  | Except.ok (_, rest1) =>
    let sent1 := sent0 ++ [Msg.mk "PHASE 1" [("server_version", serverVersion)]]
    match expected "PHASE 1" rest1 with
    | Except.error _ => (sent1, false)
    | Except.ok (reply, _) =>
      match dictLookupS reply.fields "status" with
      | none => (sent1, false)
      | some status =>
        if strLower status = "okay" then
          (sent1 ++ [Msg.mk "HANDSHAKE" []], true)
        else
          match dictLookupS reply.fields "version" with
          | none => (sent1, false)
          | some ver =>
            if ver ∈ supported then (sent1 ++ [Msg.mk "HANDSHAKE" []], true)
            else (sent1 ++ [Msg.mk "BREAK" []], false)

/-- Observable effects of one Client.register call. -/
structure RegisterTrace where
  sent : List Msg
  addClientCalls : Nat
  joinFired : Nat
  errorCodes : List Int
  listenStarted : Bool
  deriving DecidableEq, Repr

/-- Client.register, lines 42-59: run handshake under asyncio.wait_for with
the fixed 20-unit deadline; any exception (timeout included) is answered by
raise_error_code(2); otherwise _register runs (server.add_client once, one
created task for the join hook, lines 188-198) and then listen is entered.
The deadline elapsing is supplied as the timedOut flag, modelling the
TimeoutError raised by wait_for. -/
def Client.register (serverVersion : String) (supported : List String)
    (timedOut : Bool) (script : List RecvEvent) : RegisterTrace :=
  if timedOut then
    { sent := [], addClientCalls := 0, joinFired := 0,
      errorCodes := [2], listenStarted := false }
  else
    let r := Client.handshake serverVersion supported script
    if r.2 then
      { sent := r.1, addClientCalls := 1, joinFired := 1,
        errorCodes := [], listenStarted := true }
    else
      { sent := r.1, addClientCalls := 0, joinFired := 0,
        errorCodes := [2], listenStarted := false }

/-- Modelled from the spec: the Group class (spec 4.6) is missing from
src/. A group holds its member sessions; Client equality compares the
numeric id (lines 205-206), so membership is a list of session ids. -/
structure Group where
  members : List Nat
  deriving DecidableEq, Repr

/-- Modelled from the spec: Group.remove (spec 4.6), idempotent removal of
a session from the membership collection of the group. -/
def Group.remove (g : Group) (sid : Nat) : Group :=
  ⟨g.members.filter (fun m => m != sid)⟩

/-- The per-session attributes set in Client.init, lines 32-40: the id, the
open/closed state of the transport, and the list "self.groups" naming the
Group objects the session tracks (by identity). -/
structure ClientState where
  id : Nat
  transportOpen : Bool
  groups : List Nat
  deriving DecidableEq, Repr

/-- The world a session lifecycle operation can touch: the session itself,
the live Group objects keyed by identity, the client registry of the
server, and counters for the fired left-hook tasks and departure log
records. -/
structure World where
  client : ClientState
  groupTable : List (Nat × Group)
  registry : List Nat
  leftFired : Nat
  departureLogged : Nat
  deriving DecidableEq, Repr

/-- Client.close, lines 61-72: self.writer.close() and nothing else. -/
def Client.close (w : World) : World :=
  { w with client := { w.client with transportOpen := false } }

/-- Effect of awaiting group.remove(self) for every group in self.groups:
each tracked Group object drops the session id; untracked groups are
untouched. -/
def removeFromGroups (tbl : List (Nat × Group)) (sid : Nat)
    (gids : List Nat) : List (Nat × Group) :=
  tbl.map (fun p => if p.1 ∈ gids then (p.1, Group.remove p.2 sid) else p)

/-- A Python exception escaping kill(): the ValueError asyncio.wait raises
on an empty futures list (line 86), or the TypeError that the eager
formatting of the departure log line raises (line 88 — the conversion %d
requires a number and Client has only a str conversion). -/
inductive KillErr where
  | valueErrorEmptyWait
  | typeErrorLogging
  deriving DecidableEq, Repr

/-- Client.kill, lines 74-89: await close(); then
asyncio.wait([group.remove(self) for group in self.groups]) — the stdlib
asyncio.wait raises ValueError on an empty futures list, which aborts kill
before any removal; with a nonempty list all removals complete, but the
next line, logger.info with the eagerly evaluated format
"Client %d left the server" % self, raises TypeError (line 88), so kill
aborts before the departure log record and before the left-hook task of
line 89 is created. Both paths raise: departureLogged and leftFired are
never incremented. Returns the resulting world and the escaping
exception. -/
def Client.kill (w : World) : World × Option KillErr :=
  let w1 := Client.close w
  if w1.client.groups = [] then
    (w1, some KillErr.valueErrorEmptyWait)
  else
    let w2 := { w1 with
      groupTable := removeFromGroups w1.groupTable w1.client.id w1.client.groups }
    (w2, some KillErr.typeErrorLogging)

/-- Outcome of one recv() inside the dispatch loop: a framed message, a
failure of the kind the loop catches (ValueError or ConnectionResetError —
framing error or connection closed), or any other exception, which the
loop does not catch. -/
inductive LoopEvent where
  | msg (m : Msg)
  | closed
  | other
  deriving DecidableEq, Repr

/-- Observable effects of one Client.listen call. -/
structure ListenTrace where
  processed : List Msg
  killCalls : Nat
  raised : Bool
  terminated : Bool
  world : World
  deriving DecidableEq, Repr

/-- Client.listen, lines 124-138: loop over recv(); a caught
ValueError/ConnectionResetError breaks the loop and kill() runs; any other
exception propagates out of the loop without reaching kill(); each received
message is handed to process in a created task, so the loop proceeds to
the next recv regardless of what that task later does. An exhausted script
models a recv still blocked: the loop has not terminated. The raised flag
records whether an exception escaped listen — including any exception
that the final kill() itself raises. -/
def Client.listen (w : World) : List LoopEvent → ListenTrace
  | [] => ⟨[], 0, false, false, w⟩
  | LoopEvent.msg m :: rest =>
    let t := Client.listen w rest
    ⟨m :: t.processed, t.killCalls, t.raised, t.terminated, t.world⟩
  | LoopEvent.closed :: _ =>
    let r := Client.kill w
    ⟨[], 1, r.2.isSome, true, r.1⟩
  | LoopEvent.other :: _ => ⟨[], 0, true, true, w⟩

/-- A recv script eventually fails with a caught framing/connection-closed
condition (before any uncaught failure). -/
def closesCleanly : List LoopEvent → Bool
  | [] => false
  | LoopEvent.msg _ :: rest => closesCleanly rest
  | LoopEvent.closed :: _ => true
  | LoopEvent.other :: _ => false

/-- Observable effects of one Client.process call. -/
structure ProcessTrace where
  invoked : List (Nat × Nat × String × List (String × String))
  logged : Nat
  errorCodes : List Int
  deriving DecidableEq, Repr

/-- Client.process, lines 140-165: hasattr(self.server.Request, method) is
a presence lookup in the handler registry of the server (modelled, per
spec 9, as the list of registered method names). If present, the request is
logged and the handler is awaited exactly once with server=..., client=...
and the message fields as named arguments; if absent, raise_error_code(6)
runs. -/
def Client.process (serverId clientId : Nat) (registry : List String)
    (m : String) (data : List (String × String)) : ProcessTrace :=
  if m ∈ registry then
    { invoked := [(serverId, clientId, m, data)], logged := 1, errorCodes := [] }
  else
    { invoked := [], logged := 0, errorCodes := [6] }

/-- The failure kinds of the error-code table: the two exception classes of
lines 27-30 plus the reserved sentinel -1 for an undefined code. -/
inductive ErrValue where
  | handshakeError
  | recved404Error
  | undefined
  deriving DecidableEq, Repr

/-- Python dict.get with a default: walk the key/value pairs, return the
default when the key is absent. Total — there is no missing-key failure. -/
def dictGet : List (Int × ErrValue) → Int → ErrValue → ErrValue
  | [], _, dflt => dflt
  | (k2, v) :: rest, k, dflt => if k2 = k then v else dictGet rest k dflt

/-- Client.error_codes, lines 27-30: {2: HandshakeError, 6: Recved404Error}. -/
def Client.error_codes : List (Int × ErrValue) :=
  [(2, ErrValue.handshakeError), (6, ErrValue.recved404Error)]

/-- Line 180 of raise_error_code: error = self.error_codes.get(code, -1),
the resolution of a code to its failure kind, with the -1 sentinel for a
code outside the table. -/
def resolveErrorCode (code : Int) : ErrValue :=
  dictGet Client.error_codes code ErrValue.undefined

/-- A Python exception escaping raise_error_code: the TypeError that the
eager formatting of line 185 raises (the conversion %d requires a number
and Client has only a str conversion), or a resolved table failure as the
raise of line 186 would produce. -/
inductive PyErr where
  | typeError
  | errValue (e : ErrValue)
  deriving DecidableEq, Repr

/-- Client.raise_error_code, lines 167-186: resolve the code with
error_codes.get(code, -1), then await the error hook with the resolved
value (self.call, a Decorators method missing from src/ and modelled from
spec 4.5 as returning the value of the hook, -1 when no hook handled it).
When that returned value is -1, line 185 runs logger.error on the eagerly
evaluated format "Client %d raised %s ..." % (self, error), which raises
TypeError before the raise of line 186 is reached — so the escaping
exception is the TypeError and never the resolved failure (for an
undefined code, raise -1 on line 186 would also be a TypeError, since -1
is no exception). Any other returned value propagates nothing. Returns
the resolved value handed to the hook and the escaping exception, if
any. -/
def Client.raise_error_code (code : Int) (hookRet : Int) :
    ErrValue × Option PyErr :=
  let e := resolveErrorCode code
  (e, if hookRet = -1 then some PyErr.typeError else none)

/-- A session fresh out of the constructor: lines 32-40 set
self.groups = [], so this is the state of every client that was never
added to a group. -/
def wFresh : World :=
  { client := { id := 1, transportOpen := true, groups := [] },
    groupTable := [], registry := [1], leftFired := 0, departureLogged := 0 }

/-- A zero-group session used for the dispatch-loop counterexample. -/
def wFresh7 : World :=
  { client := { id := 7, transportOpen := true, groups := [] },
    groupTable := [], registry := [7], leftFired := 0, departureLogged := 0 }

/-- A session tracked by one group, used as a concrete listen witness. -/
def wOneGroup : World :=
  { client := { id := 7, transportOpen := true, groups := [0] },
    groupTable := [(0, ⟨[7]⟩)], registry := [7],
    leftFired := 0, departureLogged := 0 }

/-- An already-closed session tracked by one group. -/
def wClosedOneGroup : World :=
  { client := { id := 2, transportOpen := false, groups := [0] },
    groupTable := [(0, ⟨[2]⟩)], registry := [2],
    leftFired := 0, departureLogged := 0 }

/-- An arbitrary world used only to instantiate theorems. -/
def wAny : World :=
  { client := { id := 0, transportOpen := true, groups := [] },
    groupTable := [], registry := [], leftFired := 0, departureLogged := 0 }

/-- C1. The claim states the admission rule of spec 4.2 in its corrected
form: fail exactly when the status is not okay or the version is
unsupported. The code at line 119 joins the two negated tests with "and",
so a reply with status okay and an unsupported version is admitted: the
final HANDSHAKE confirmation is sent, no BREAK is sent, and the handshake
completes without raising. -/
theorem handshake_admits_unsupported_version :
    Client.handshake "1.0" ["1.0"]
      [RecvEvent.msg ⟨"HANDSHAKE", []⟩,
       RecvEvent.msg ⟨"PHASE 1", [("status", "okay"), ("version", "2.0")]⟩]
      = ([⟨"HANDSHAKE", []⟩, ⟨"PHASE 1", [("server_version", "1.0")]⟩,
          ⟨"HANDSHAKE", []⟩], true) ∧
    ("2.0" ∈ ["1.0"]) = False := by
  constructor
  · rfl
  · simp

/-- C2. On a session that belongs to zero groups — the state every client
is constructed in (self.groups = [] at line 37) — kill() does not complete:
asyncio.wait over the empty removal list raises ValueError, so departure is
never logged and the left hook never fires. -/
theorem kill_aborts_on_zero_groups :
    wFresh.client.groups = [] ∧
    (Client.kill wFresh).2 = some KillErr.valueErrorEmptyWait ∧
    ((Client.kill wFresh).1).leftFired = 0 ∧
    ((Client.kill wFresh).1).departureLogged = 0 := by
  refine ⟨rfl, rfl, rfl, rfl⟩

/-- C3. In the successful handshake scenario — the peer echoes HANDSHAKE
and answers PHASE 1 with status okay and a supported version — register
admits the session: add_client is called exactly once, the join hook fires
exactly once, no error code is signaled, and the dispatch loop starts. -/
theorem register_success_admits_once (sv v : String) (supported : List String)
    (_hv : v ∈ supported) :
    Client.register sv supported false
      [RecvEvent.msg ⟨"HANDSHAKE", []⟩,
       RecvEvent.msg ⟨"PHASE 1", [("status", "okay"), ("version", v)]⟩]
      = { sent := [⟨"HANDSHAKE", []⟩, ⟨"PHASE 1", [("server_version", sv)]⟩,
                   ⟨"HANDSHAKE", []⟩],
          addClientCalls := 1, joinFired := 1, errorCodes := [],
          listenStarted := true } := by
  rfl

theorem register_success_admits_once_witness :
    Client.register "1.0" ["1.0"] false
      [RecvEvent.msg ⟨"HANDSHAKE", []⟩,
       RecvEvent.msg ⟨"PHASE 1", [("status", "okay"), ("version", "1.0")]⟩]
      = { sent := [⟨"HANDSHAKE", []⟩, ⟨"PHASE 1", [("server_version", "1.0")]⟩,
                   ⟨"HANDSHAKE", []⟩],
          addClientCalls := 1, joinFired := 1, errorCodes := [],
          listenStarted := true } :=
  register_success_admits_once "1.0" "1.0" ["1.0"] (by decide)

/-- C4. Whenever the handshake fails — the 20-unit deadline elapsed or the
handshake raised for any reason, transport failures included — register
signals error code 2 and does not proceed: add_client is not called, no
join hook fires, and the dispatch loop never starts. -/
theorem register_failure_signals_code2 (sv : String) (supported : List String)
    (timedOut : Bool) (script : List RecvEvent)
    (h : timedOut = true ∨ (Client.handshake sv supported script).2 = false) :
    (Client.register sv supported timedOut script).errorCodes = [2] ∧
    (Client.register sv supported timedOut script).addClientCalls = 0 ∧
    (Client.register sv supported timedOut script).joinFired = 0 ∧
    (Client.register sv supported timedOut script).listenStarted = false := by
  rcases h with h | h
  · subst h
    exact ⟨rfl, rfl, rfl, rfl⟩
  · cases ht : timedOut
    · simp [Client.register, ht, h]
    · simp [Client.register, ht]

theorem register_failure_signals_code2_witness :
    (Client.register "1.0" [] true []).errorCodes = [2] ∧
    (Client.register "1.0" [] true []).addClientCalls = 0 ∧
    (Client.register "1.0" [] true []).joinFired = 0 ∧
    (Client.register "1.0" [] true []).listenStarted = false :=
  register_failure_signals_code2 "1.0" [] true [] (Or.inl rfl)

/-- C5. At the failing input — a recv failure of the caught
framing/connection-closed kind — the loop does terminate and does invoke
kill() exactly once, but the termination raises further, because kill()
itself always raises: ValueError from asyncio.wait([]) on a zero-group
session, TypeError from the departure-log formatting of line 88 on a
session with groups. The claim says such a termination raises nothing. -/
theorem listen_termination_always_raises :
    closesCleanly [LoopEvent.closed] = true ∧
    (Client.listen wOneGroup [LoopEvent.closed]).terminated = true ∧
    (Client.listen wOneGroup [LoopEvent.closed]).killCalls = 1 ∧
    (Client.listen wOneGroup [LoopEvent.closed]).raised = true ∧
    (Client.listen wFresh7 [LoopEvent.closed]).terminated = true ∧
    (Client.listen wFresh7 [LoopEvent.closed]).killCalls = 1 ∧
    (Client.listen wFresh7 [LoopEvent.closed]).raised = true := by
  refine ⟨rfl, rfl, rfl, rfl, rfl, rfl, rfl⟩

/-- C6. Dispatch resolves the method name against the handler registry of
the server: a registered method is invoked exactly once with the server,
the session and the message fields as named arguments, and logged; an
unregistered method signals error code 6 and invokes nothing. Either way
the loop continues: after receiving a message the loop behaves on the rest
of its input exactly as it would without that message, so subsequent
messages are still processed. -/
theorem process_dispatch_resolution (serverId clientId : Nat)
    (registry : List String) (m : String) (data : List (String × String))
    (w : World) (msg1 : Msg) (rest : List LoopEvent) :
    (m ∈ registry →
      Client.process serverId clientId registry m data
        = { invoked := [(serverId, clientId, m, data)], logged := 1,
            errorCodes := [] }) ∧
    (m ∉ registry →
      Client.process serverId clientId registry m data
        = { invoked := [], logged := 0, errorCodes := [6] }) ∧
    (Client.listen w (LoopEvent.msg msg1 :: rest)).processed
      = msg1 :: (Client.listen w rest).processed ∧
    (Client.listen w (LoopEvent.msg msg1 :: rest)).terminated
      = (Client.listen w rest).terminated ∧
    (Client.listen w (LoopEvent.msg msg1 :: rest)).raised
      = (Client.listen w rest).raised ∧
    (Client.listen w (LoopEvent.msg msg1 :: rest)).killCalls
      = (Client.listen w rest).killCalls := by
  refine ⟨fun hm => ?_, fun hm => ?_, rfl, rfl, rfl, rfl⟩
  · simp [Client.process, hm]
  · simp [Client.process, hm]

theorem process_dispatch_resolution_witness :
    Client.process 0 1 ["foo"] "foo" [("x", "y")]
      = { invoked := [(0, 1, "foo", [("x", "y")])], logged := 1,
          errorCodes := [] } ∧
    Client.process 0 1 ["foo"] "bar" []
      = { invoked := [], logged := 0, errorCodes := [6] } :=
  ⟨(process_dispatch_resolution 0 1 ["foo"] "foo" [("x", "y")] wAny
      ⟨"foo", []⟩ []).1 (by decide),
   (process_dispatch_resolution 0 1 ["foo"] "bar" [] wAny
      ⟨"foo", []⟩ []).2.1 (by decide)⟩

/-- C7. At the failing input — code 2, error hook returning the -1
sentinel — the code resolves the failure to HandshakeError and hands it to
the hook, but the hard failure that then escapes is the TypeError of the
line-185 formatting, never the resolved failure, which the raise of line
186 cannot reach; a hook return value other than -1 propagates nothing.
The claim says the resolved failure itself is raised on -1. -/
theorem raise_error_hook_unhandled_raises_type_error :
    (Client.raise_error_code 2 (-1)).1 = ErrValue.handshakeError ∧
    (Client.raise_error_code 2 (-1)).2 = some PyErr.typeError ∧
    (∀ e : ErrValue,
      (Client.raise_error_code 2 (-1)).2 ≠ some (PyErr.errValue e)) ∧
    (Client.raise_error_code 2 0).2 = none := by
  refine ⟨rfl, rfl, ?_, rfl⟩
  intro e h
  simp [Client.raise_error_code] at h

/-- C8. Every code outside the table keys 2 and 6 is resolved by
raise_error_code (line 180) to the -1 undefined sentinel, which is the
value handed to the error hook; dict.get with a default is total, so the
lookup never fails with a missing key. -/
theorem undefined_code_resolves_to_sentinel (code : Int)
    (h2 : code ≠ 2) (h6 : code ≠ 6) :
    resolveErrorCode code = ErrValue.undefined ∧
    ∀ hookRet : Int,
      (Client.raise_error_code code hookRet).1 = ErrValue.undefined := by
  have hres : resolveErrorCode code = ErrValue.undefined := by
    simp [resolveErrorCode, Client.error_codes, dictGet,
      Ne.symm h2, Ne.symm h6]
  exact ⟨hres, fun hookRet => by simp [Client.raise_error_code, hres]⟩

theorem undefined_code_resolves_to_sentinel_witness :
    resolveErrorCode 5 = ErrValue.undefined ∧
    (Client.raise_error_code 5 (-1)).1 = ErrValue.undefined :=
  ⟨(undefined_code_resolves_to_sentinel 5 (by decide) (by decide)).1,
   (undefined_code_resolves_to_sentinel 5 (by decide) (by decide)).2 (-1)⟩

/-- C9. The close() frame part of the claim is true of the program and is
stated here for every world: close() releases the transport only — the own
groups list, every group membership collection, the left-hook count and
the server registry are untouched. The kill-after-close part fails at the
failing input, an already-closed session tracked by one group: the
subsequent kill() performs its group removal (the membership collection of
group 0 drops the session), but then raises TypeError at the line-88
formatting, before the left-hook task of line 89, so the left hook never
fires. The claim says it fires exactly once. -/
theorem close_releases_transport_only_left_never_fires :
    (∀ w : World,
      (Client.close w).client.groups = w.client.groups ∧
      (Client.close w).groupTable = w.groupTable ∧
      (Client.close w).leftFired = w.leftFired ∧
      (Client.close w).registry = w.registry) ∧
    wClosedOneGroup.client.transportOpen = false ∧
    (Client.kill (Client.close wClosedOneGroup)).2
      = some KillErr.typeErrorLogging ∧
    ((Client.kill (Client.close wClosedOneGroup)).1).groupTable
      = [(0, ⟨[]⟩)] ∧
    ((Client.kill (Client.close wClosedOneGroup)).1).leftFired = 0 ∧
    ((Client.kill (Client.close wClosedOneGroup)).1).departureLogged = 0 := by
  refine ⟨fun w => ⟨rfl, rfl, rfl, rfl⟩, rfl, rfl, ?_, rfl, rfl⟩
  decide

/-- C10. kill() never mutates the own groups list of the session: whether
it completes or aborts, the client record keeps exactly the same groups
entries (and the same id); only the membership collections of the Group
objects are asked to remove the session. -/
theorem kill_preserves_own_groups_list (w : World) :
    ((Client.kill w).1).client.groups = w.client.groups ∧
    ((Client.kill w).1).client.id = w.client.id := by
  by_cases h : w.client.groups = [] <;>
    simp [Client.kill, Client.close, h]

end EasyTCP
